import Mathlib

/-!
Verification of the PPTX extraction scripts
(`backend/scripts/extract_pptx_with_images.py` and
`backend/scripts/extract_pptx.py`) against their specification.

The Python shape model (python-pptx) is embedded as an inductive type:
only shapes backed by a text frame expose a `text` attribute
(`hasattr(shape, "text")`); tables, pictures and groups do not.
Picture payloads are `Option ImageBlob`: `none` models the case where
reading the picture's bytes (or persisting them) raises inside the
per-image `try` block.  Filesystem effects are made explicit as a trace
of `FsOp` values, and warnings printed to stderr as `Warning` records.
-/

namespace Koda

/-- Raw bytes plus the declared MIME content type of an embedded image. -/
structure ImageBlob where
  blob : List Nat
  content_type : String
  deriving Repr, DecidableEq

/-- The shape variants distinguished by the extractor.  A `textFrame`
carries the value of the Python `shape.text` attribute; a `table`
carries its cell texts row by row; a `group` carries its child shapes;
a `picture` carries `some` blob, or `none` when reading its bytes
fails. -/
inductive Shape where
  | textFrame (text : String)
  | table (rows : List (List String))
  | group (children : List Shape)
  | picture (img : Option ImageBlob)
  | other

/-- A slide: its shapes in declaration order, and `some t` when the
slide has a notes slide whose notes text frame holds `t`. -/
structure Slide where
  shapes : List Shape
  notes : Option String

/-- Core document properties; `none` models a Python `None` (falsy)
value.  `created`/`modified` hold the `str()` rendering of the
timestamp when present. -/
structure CoreProperties where
  title : Option String
  author : Option String
  subject : Option String
  created : Option String
  modified : Option String
  deriving Repr, DecidableEq

/-- A successfully opened presentation package. -/
structure Presentation where
  core_properties : CoreProperties
  slide_width : Nat
  slide_height : Nat
  slides : List Slide

/-- Outcome of `Presentation(file_path)`: success, `FileNotFoundError`,
or any other exception with its message. -/
inductive LoadResult where
  | ok (prs : Presentation)
  | notFound
  | corrupt (msg : String)

/-- The metadata record of a successful extraction. -/
structure Metadata where
  title : String
  author : String
  subject : String
  created : String
  modified : String
  slide_count : Nat
  slide_width : Nat
  slide_height : Nat
  deriving Repr, DecidableEq

/-- One extracted image record, as returned inline in the result. -/
structure ImageRecord where
  filename : String
  path : String
  content_type : String
  size : Nat
  base64 : String
  deriving Repr, DecidableEq

/-- Per-slide record.  `images = none` models the absence of the
`images` key (text-only extraction); `some l` models its presence. -/
structure SlideData where
  slide_number : Nat
  content : String
  text_count : Nat
  images : Option (List ImageRecord)
  deriving Repr, DecidableEq

/-- The success payload.  `total_images`/`images` are `Option`s:
`none` models the key being absent from the returned dict, `some`
models it being present. -/
structure SuccessData where
  metadata : Metadata
  slides : List SlideData
  full_text : String
  total_slides : Nat
  slides_with_text : Nat
  total_characters : Nat
  total_images : Option Nat
  images : Option (List ImageRecord)
  deriving Repr, DecidableEq

/-- Overall result: success payload or `{success:false, error:…}`. -/
inductive ExtractResult where
  | success (d : SuccessData)
  | failure (error : String)
  deriving Repr, DecidableEq

/-- A filesystem side effect performed during extraction. -/
inductive FsOp where
  | mkdir (dir : String)
  | writeFile (path : String) (bytes : List Nat)
  deriving Repr, DecidableEq

/-- A non-fatal warning printed to stderr, identifying which image of
which slide was skipped. -/
structure Warning where
  slide_number : Nat
  shape_idx : Nat
  deriving Repr, DecidableEq

/-- The standard base64 alphabet as a character list. -/
def b64Alphabet : List Char :=
  "ABCDEFGHIJKLMNOPQRSTUVWXYZabcdefghijklmnopqrstuvwxyz0123456789+/".toList

/-- The base64 digit for a 6-bit value. -/
def b64Char (n : Nat) : Char := b64Alphabet.getD n 'A'

/-- Standard base64 encoding (`base64.b64encode`) of a byte list,
as a character list. -/
def b64chars : List Nat → List Char
  | [] => []
  | [a] => [b64Char (a / 4), b64Char (a % 4 * 16), '=', '=']
  | [a, b] => [b64Char (a / 4), b64Char (a % 4 * 16 + b / 16), b64Char (b % 16 * 4), '=']
  | a :: b :: c :: rest =>
      b64Char (a / 4) :: b64Char (a % 4 * 16 + b / 16) ::
      b64Char (b % 16 * 4 + c / 64) :: b64Char (c % 64) :: b64chars rest

/-- Python whitespace stripped by `str.strip()`. -/
def isSpaceChar (c : Char) : Bool :=
  c = ' ' ∨ c = '\t' ∨ c = '\n' ∨ c = '\r' ∨ c = '\x0b' ∨ c = '\x0c'

/-- Drop leading whitespace characters. -/
def dropLeadingSpace : List Char → List Char
  | [] => []
  | c :: cs => if isSpaceChar c then dropLeadingSpace cs else c :: cs

/-- Python `str.strip()`: remove leading and trailing whitespace. -/
def pyStrip (t : String) : String :=
  String.mk (dropLeadingSpace ((dropLeadingSpace t.toList.reverse).reverse))

/-- Python `str.split(sep)` for a one-character separator, on a
character list. -/
def splitAtChar (sep : Char) : List Char → List (List Char)
  | [] => [[]]
  | c :: cs =>
      let r := splitAtChar sep cs
      if c = sep then [] :: r
      else
        match r with
        | [] => [[c]]
        | h :: t => (c :: h) :: t

/-- `content_type.split('/')[-1] if '/' in content_type else 'png'`. -/
def extOfContentType (ct : String) : String :=
  if ct.toList.contains '/' then
    String.mk ((splitAtChar '/' ct.toList).getLastD [])
  else "png"

/-- `f"slide_{slide_number}_img_{shape_idx + 1}.{ext}"`. -/
def imageFilename (slide_number shape_idx : Nat) (ext : String) : String :=
  "slide_" ++ toString slide_number ++ "_img_" ++ toString (shape_idx + 1) ++ "." ++ ext

/-- `os.path.join(output_dir, filename)` (POSIX join). -/
def joinPath (dir name : String) : String := dir ++ "/" ++ name

/-- The inline record built for one successfully read picture:
the `base64` field is a data-URI prefix plus only the first 100
characters of the full base64 encoding, then an ellipsis. -/
def mkImageRecord (slide_number shape_idx : Nat) (output_dir : String)
    (img : ImageBlob) : ImageRecord :=
  let ext := extOfContentType img.content_type
  let filename := imageFilename slide_number shape_idx ext
  { filename := filename
    path := joinPath output_dir filename
    content_type := img.content_type
    size := img.blob.length
    base64 := "data:" ++ img.content_type ++ ";base64," ++
      String.mk ((b64chars img.blob).take 100) ++ "..." }

/-- Accumulated output of per-slide image extraction. -/
structure ImgAcc where
  images : List ImageRecord
  ops : List FsOp
  warns : List Warning
  deriving Repr, DecidableEq

/-- The `for shape_idx, shape in enumerate(slide.shapes)` loop of
`extract_images_from_slide`, starting at index `i`. -/
def imagesLoop (slide_number : Nat) (output_dir : String) :
    List Shape → Nat → ImgAcc
  | [], _ => ⟨[], [], []⟩
  | s :: rest, i =>
      let tail := imagesLoop slide_number output_dir rest (i + 1)
      match s with
      | Shape.picture (some img) =>
          let r := mkImageRecord slide_number i output_dir img
          ⟨r :: tail.images, FsOp.writeFile r.path img.blob :: tail.ops, tail.warns⟩
      | Shape.picture none =>
          ⟨tail.images, tail.ops, ⟨slide_number, i⟩ :: tail.warns⟩
      | _ => tail

/-- `extract_images_from_slide(slide, slide_number, output_dir)`:
returns the image records together with the file writes performed and
the warnings emitted. -/
def extract_images_from_slide (slide : Slide) (slide_number : Nat)
    (output_dir : String) : ImgAcc :=
  imagesLoop slide_number output_dir slide.shapes 0

/-- `if hasattr(shape, "text") and shape.text:` — the value of the
`text` attribute, when the shape has one. -/
def shapeTextAttr : Shape → Option String
  | Shape.textFrame t => some t
  | _ => none

/-- `text = shape.text.strip(); if text: texts.append(text)` applied to
a raw attribute value `t` known to be truthy-checked first. -/
def trimFragment (t : String) : List String :=
  if t ≠ "" then
    let tt := pyStrip t
    if tt ≠ "" then [tt] else []
  else []

/-- The fragments a shape contributes via the `hasattr(shape, "text")`
branch (also used for immediate group children). -/
def attrFragments (s : Shape) : List String :=
  match shapeTextAttr s with
  | some t => trimFragment t
  | none => []

/-- One table row: trim every cell, keep the non-empty ones, join with
`" | "`; a row with no surviving cell yields nothing. -/
def rowFragment (row : List String) : Option String :=
  let row_texts := (row.map pyStrip).filter (fun c => c ≠ "")
  if row_texts ≠ [] then some (String.intercalate " | " row_texts) else none

/-- All fragments one shape contributes, in the code's order: the text
attribute branch, then the table branch, then the group branch. -/
def shapeFragments (s : Shape) : List String :=
  attrFragments s ++
  (match s with
   | Shape.table rows => rows.filterMap rowFragment
   | _ => []) ++
  (match s with
   | Shape.group children => children.flatMap attrFragments
   | _ => [])

/-- The final `Speaker Notes:` fragment, when the slide has a notes
slide with non-empty trimmed text. -/
def notesFragments (slide : Slide) : List String :=
  match slide.notes with
  | some nt =>
      let s := pyStrip nt
      if s ≠ "" then ["Speaker Notes: " ++ s] else []
  | none => []

/-- All text fragments of a slide, shapes first then notes. -/
def slideTexts (slide : Slide) : List String :=
  slide.shapes.flatMap shapeFragments ++ notesFragments slide

/-- `extract_text_from_slide(slide, slide_number)` (identical in both
scripts): the per-slide record, without an `images` key. -/
def extract_text_from_slide (slide : Slide) (slide_number : Nat) : SlideData :=
  let texts := slideTexts slide
  { slide_number := slide_number
    content := String.intercalate "\n" texts
    text_count := texts.length
    images := none }

/-- Python truthiness of the optional `output_dir` argument:
`None` and `""` are falsy. -/
def truthy : Option String → Bool
  | none => false
  | some s => s ≠ ""

/-- Accumulated output of the main per-slide loop. -/
structure SlideAcc where
  slides : List SlideData
  images : List ImageRecord
  ops : List FsOp
  warns : List Warning
  deriving Repr, DecidableEq

/-- The `for idx, slide in enumerate(prs.slides, start=1)` loop body of
`extract_pptx_data` for one slide at index `idx`. -/
def processSlide (slide : Slide) (idx : Nat) (od : Option String) :
    SlideData × ImgAcc :=
  let sd := extract_text_from_slide slide idx
  if truthy od then
    let acc := extract_images_from_slide slide idx (od.getD "")
    ({ sd with images := some acc.images }, acc)
  else (sd, ⟨[], [], []⟩)

/-- The main per-slide loop of `extract_pptx_data`, starting at slide
index `idx`. -/
def processSlides (od : Option String) : List Slide → Nat → SlideAcc
  | [], _ => ⟨[], [], [], []⟩
  | s :: rest, idx =>
      let p := processSlide s idx od
      let tail := processSlides od rest (idx + 1)
      ⟨p.1 :: tail.slides, p.2.images ++ tail.images,
       p.2.ops ++ tail.ops, p.2.warns ++ tail.warns⟩

/-- The metadata dict built from the loaded presentation, with Python's
`x or ''` / `str(x) if x else ''` defaulting. -/
def mkMetadata (prs : Presentation) : Metadata :=
  { title := prs.core_properties.title.getD ""
    author := prs.core_properties.author.getD ""
    subject := prs.core_properties.subject.getD ""
    created := prs.core_properties.created.getD ""
    modified := prs.core_properties.modified.getD ""
    slide_count := prs.slides.length
    slide_width := prs.slide_width
    slide_height := prs.slide_height }

/-- The `=== Slide <n> ===` block emitted into `full_text` for one
slide with non-empty content. -/
def slideBlock (s : SlideData) : String :=
  "=== Slide " ++ toString s.slide_number ++ " ===\n" ++ s.content

/-- `full_text`: blocks for the slides with non-empty content, joined
by one blank line. -/
def fullTextOf (slides : List SlideData) : String :=
  String.intercalate "\n\n"
    ((slides.filter (fun s => s.content ≠ "")).map slideBlock)

/-- Result of one `extract_pptx_data` run: the returned value plus the
filesystem trace and warnings. -/
structure RunResult where
  result : ExtractResult
  ops : List FsOp
  warns : List Warning
  deriving Repr, DecidableEq

/-- `extract_pptx_data(file_path, output_dir)`.  `load` is the outcome
of `Presentation(file_path)`; `dirExists` the value of
`os.path.exists(output_dir)` at entry. -/
def extract_pptx_data (file_path : String) (load : LoadResult)
    (output_dir : Option String) (dirExists : Bool) : RunResult :=
  match load with
  | LoadResult.notFound =>
      ⟨ExtractResult.failure ("File not found: " ++ file_path), [], []⟩
  | LoadResult.corrupt msg =>
      ⟨ExtractResult.failure ("Error extracting PPTX: " ++ msg), [], []⟩
  | LoadResult.ok prs =>
      let mkdirOps :=
        if truthy output_dir ∧ ¬dirExists then [FsOp.mkdir (output_dir.getD "")] else []
      let acc := processSlides output_dir prs.slides 1
      let ft := fullTextOf acc.slides
      ⟨ExtractResult.success
        { metadata := mkMetadata prs
          slides := acc.slides
          full_text := ft
          total_slides := prs.slides.length
          slides_with_text := (acc.slides.filter (fun s => s.content ≠ "")).length
          total_characters := ft.length
          total_images := some acc.images.length
          images := some acc.images },
       mkdirOps ++ acc.ops, acc.warns⟩

/-- The per-slide loop of the text-only `extract_text_from_pptx`. -/
def textSlides : List Slide → Nat → List SlideData
  | [], _ => []
  | s :: rest, idx => extract_text_from_slide s idx :: textSlides rest (idx + 1)

/-- `extract_text_from_pptx(file_path)` from `extract_pptx.py`: the
text-only extractor.  Its result dict has no `total_images`/`images`
keys and its slide records no `images` key. -/
def extract_text_from_pptx (file_path : String) (load : LoadResult) :
    ExtractResult :=
  match load with
  | LoadResult.notFound =>
      ExtractResult.failure ("File not found: " ++ file_path)
  | LoadResult.corrupt msg =>
      ExtractResult.failure ("Error extracting PPTX: " ++ msg)
  | LoadResult.ok prs =>
      let slides := textSlides prs.slides 1
      let ft := fullTextOf slides
      ExtractResult.success
        { metadata := mkMetadata prs
          slides := slides
          full_text := ft
          total_slides := prs.slides.length
          slides_with_text := (slides.filter (fun s => s.content ≠ "")).length
          total_characters := ft.length
          total_images := none
          images := none }

end Koda

namespace Koda

/-! ### Observation helpers (reading fields of a returned result) -/

/-- Whether the returned dict has `success: true`. -/
def resultIsSuccess : ExtractResult → Bool
  | ExtractResult.success _ => true
  | ExtractResult.failure _ => false

/-- The `total_images` key of a successful result (`none` on failure;
`some none` would mean success without the key). -/
def resultTotalImages : ExtractResult → Option (Option Nat)
  | ExtractResult.success d => some d.total_images
  | ExtractResult.failure _ => none

/-- The `images` key of a successful result. -/
def resultImages : ExtractResult → Option (Option (List ImageRecord))
  | ExtractResult.success d => some d.images
  | ExtractResult.failure _ => none

/-- The `full_text` field of a successful result. -/
def resultFullText : ExtractResult → Option String
  | ExtractResult.success d => some d.full_text
  | ExtractResult.failure _ => none

/-- The `slides_with_text` field of a successful result. -/
def resultSlidesWithText : ExtractResult → Option Nat
  | ExtractResult.success d => some d.slides_with_text
  | ExtractResult.failure _ => none

/-! ### Shape classification predicates -/

/-- The shape is a Picture (`shape.shape_type == MSO_SHAPE_TYPE.PICTURE`). -/
def isPictureShape : Shape → Bool
  | Shape.picture _ => true
  | _ => false

/-- A picture whose bytes can be read and persisted. -/
def isReadablePicture : Shape → Bool
  | Shape.picture (some _) => true
  | _ => false

/-- A picture whose bytes cannot be read (the per-image `try` raises). -/
def isFailedPicture : Shape → Bool
  | Shape.picture none => true
  | _ => false

/-! ### Concrete inputs used by witnesses and counterexamples -/

/-- Slide 1 of the spec's scenario: shape text `"Intro"` and a 2×2
table `[["A","B"],["C","D"]]`. -/
def demoSlide1 : Slide :=
  { shapes := [Shape.textFrame "Intro", Shape.table [["A", "B"], ["C", "D"]]]
    notes := none }

/-- Slide 2 of the spec's scenario: no shapes, notes `"Remember X"`. -/
def demoSlide2 : Slide := { shapes := [], notes := some "Remember X" }

/-- Empty core properties. -/
def demoCore : CoreProperties := ⟨none, none, none, none, none⟩

/-- The spec's 2-slide scenario deck. -/
def demoPrs : Presentation :=
  { core_properties := demoCore
    slide_width := 9144000
    slide_height := 6858000
    slides := [demoSlide1, demoSlide2] }

/-- A sample readable image blob (bytes of `"Man"`, PNG type). -/
def demoBlob : ImageBlob := { blob := [77, 97, 110], content_type := "image/png" }

/-- A slide with one readable picture (index 0) and one unreadable
picture (index 1). -/
def demoBadSlide : Slide :=
  { shapes := [Shape.picture (some demoBlob), Shape.picture none], notes := none }

/-- A deck containing `demoBadSlide`. -/
def demoBadPrs : Presentation :=
  { core_properties := demoCore
    slide_width := 9144000
    slide_height := 6858000
    slides := [demoBadSlide] }

/-- The payload of a successful result (a dummy empty payload on
failure; used only to state closed corollaries). -/
def getSuccess : ExtractResult → SuccessData
  | ExtractResult.success d => d
  | ExtractResult.failure _ =>
      ⟨⟨"", "", "", "", "", 0, 0, 0⟩, [], "", 0, 0, 0, none, none⟩

/-! ### Helper lemmas -/

/-- The slide record built by one loop iteration: the text record, with
the `images` key added exactly when image extraction is enabled. -/
theorem processSlide_fst (s : Slide) (idx : Nat) (od : Option String) :
    (processSlide s idx od).1 =
      { extract_text_from_slide s idx with
        images :=
          if truthy od then some (extract_images_from_slide s idx (od.getD "")).images
          else none } := by
  unfold processSlide
  by_cases h : truthy od = true
  · simp [h]
  · simp [Bool.not_eq_true] at h
    simp [h, extract_text_from_slide]

/-- Unfolding of the main loop on a non-empty slide list. -/
theorem processSlides_cons (od : Option String) (s : Slide) (rest : List Slide)
    (idx : Nat) :
    processSlides od (s :: rest) idx =
      ⟨(processSlide s idx od).1 :: (processSlides od rest (idx + 1)).slides,
       (processSlide s idx od).2.images ++ (processSlides od rest (idx + 1)).images,
       (processSlide s idx od).2.ops ++ (processSlides od rest (idx + 1)).ops,
       (processSlide s idx od).2.warns ++ (processSlides od rest (idx + 1)).warns⟩ := rfl

/-- The slide record of one loop iteration keeps the slide number it
was built with. -/
theorem processSlide_slide_number (s : Slide) (idx : Nat) (od : Option String) :
    (processSlide s idx od).1.slide_number = idx := by
  rw [processSlide_fst]; rfl

/-- The slide numbers produced by the main loop starting at `idx` are
exactly `idx, idx+1, …`. -/
theorem processSlides_map_slide_number (od : Option String) :
    ∀ (ss : List Slide) (idx : Nat),
      (processSlides od ss idx).slides.map (fun s => s.slide_number) =
        List.range' idx ss.length
  | [], _ => rfl
  | s :: rest, idx => by
    rw [processSlides_cons]
    simp only [List.map_cons, List.length_cons, List.range'_succ,
      processSlides_map_slide_number od rest (idx + 1), processSlide_slide_number]

/-- When the output-directory argument is falsy (absent or empty), the
main loop degenerates to the text-only loop: no images, no filesystem
operations, no warnings. -/
theorem processSlides_not_truthy (od : Option String) (h : truthy od = false) :
    ∀ (ss : List Slide) (idx : Nat),
      processSlides od ss idx = ⟨textSlides ss idx, [], [], []⟩
  | [], _ => rfl
  | s :: rest, idx => by
    rw [processSlides_cons, processSlides_not_truthy od h rest (idx + 1)]
    simp [processSlide, h, textSlides]

/-- The flattened image list accumulated by the main loop is the
concatenation of the per-slide image lists, in slide order. -/
theorem processSlides_images_flatten (od : Option String) :
    ∀ (ss : List Slide) (idx : Nat),
      (processSlides od ss idx).images =
        (processSlides od ss idx).slides.flatMap (fun s => s.images.getD [])
  | [], _ => rfl
  | s :: rest, idx => by
    rw [processSlides_cons]
    simp only [List.flatMap_cons]
    rw [processSlide_fst, ← processSlides_images_flatten od rest (idx + 1)]
    by_cases h : truthy od = true
    · simp [processSlide, h]
    · simp [processSlide, h]

end Koda

namespace Koda

/-- Every record produced by the image loop is `mkImageRecord` applied
to some shape index and some successfully read blob. -/
theorem imagesLoop_images_mem (n : Nat) (dir : String) :
    ∀ (ss : List Shape) (i : Nat) (r : ImageRecord),
      r ∈ (imagesLoop n dir ss i).images →
      ∃ (j : Nat) (img : ImageBlob), r = mkImageRecord n j dir img
  | [], _, _, h => by simp [imagesLoop] at h
  | Shape.picture (some img) :: rest, i, r, h => by
    simp only [imagesLoop, List.mem_cons] at h
    cases h with
    | inl h => exact ⟨i, img, h⟩
    | inr h => exact imagesLoop_images_mem n dir rest (i + 1) r h
  | Shape.picture none :: rest, i, r, h =>
    imagesLoop_images_mem n dir rest (i + 1) r (by simpa [imagesLoop] using h)
  | Shape.textFrame t :: rest, i, r, h =>
    imagesLoop_images_mem n dir rest (i + 1) r (by simpa [imagesLoop] using h)
  | Shape.table rows :: rest, i, r, h =>
    imagesLoop_images_mem n dir rest (i + 1) r (by simpa [imagesLoop] using h)
  | Shape.group cs :: rest, i, r, h =>
    imagesLoop_images_mem n dir rest (i + 1) r (by simpa [imagesLoop] using h)
  | Shape.other :: rest, i, r, h =>
    imagesLoop_images_mem n dir rest (i + 1) r (by simpa [imagesLoop] using h)

/-- Every warning emitted by the image loop carries the slide number it
was called with, and points at a shape index whose shape is an
unreadable picture. -/
theorem imagesLoop_warns_mem (n : Nat) (dir : String) :
    ∀ (ss : List Shape) (i : Nat) (w : Warning),
      w ∈ (imagesLoop n dir ss i).warns →
      w.slide_number = n ∧ i ≤ w.shape_idx ∧
        ss[w.shape_idx - i]? = some (Shape.picture none)
  | [], _, _, h => by simp [imagesLoop] at h
  | Shape.picture (some img) :: rest, i, w, h => by
    simp only [imagesLoop] at h
    obtain ⟨h1, h2, h3⟩ := imagesLoop_warns_mem n dir rest (i + 1) w h
    refine ⟨h1, by omega, ?_⟩
    have heq : w.shape_idx - i = (w.shape_idx - (i + 1)) + 1 := by omega
    rw [heq, List.getElem?_cons_succ]
    exact h3
  | Shape.picture none :: rest, i, w, h => by
    simp only [imagesLoop, List.mem_cons] at h
    cases h with
    | inl h =>
      subst h
      exact ⟨rfl, Nat.le_refl i, by simp⟩
    | inr h =>
      obtain ⟨h1, h2, h3⟩ := imagesLoop_warns_mem n dir rest (i + 1) w h
      refine ⟨h1, by omega, ?_⟩
      have heq : w.shape_idx - i = (w.shape_idx - (i + 1)) + 1 := by omega
      rw [heq, List.getElem?_cons_succ]
      exact h3
  | Shape.textFrame t :: rest, i, w, h => by
    obtain ⟨h1, h2, h3⟩ :=
      imagesLoop_warns_mem n dir rest (i + 1) w (by simpa [imagesLoop] using h)
    refine ⟨h1, by omega, ?_⟩
    have heq : w.shape_idx - i = (w.shape_idx - (i + 1)) + 1 := by omega
    rw [heq, List.getElem?_cons_succ]
    exact h3
  | Shape.table rows :: rest, i, w, h => by
    obtain ⟨h1, h2, h3⟩ :=
      imagesLoop_warns_mem n dir rest (i + 1) w (by simpa [imagesLoop] using h)
    refine ⟨h1, by omega, ?_⟩
    have heq : w.shape_idx - i = (w.shape_idx - (i + 1)) + 1 := by omega
    rw [heq, List.getElem?_cons_succ]
    exact h3
  | Shape.group cs :: rest, i, w, h => by
    obtain ⟨h1, h2, h3⟩ :=
      imagesLoop_warns_mem n dir rest (i + 1) w (by simpa [imagesLoop] using h)
    refine ⟨h1, by omega, ?_⟩
    have heq : w.shape_idx - i = (w.shape_idx - (i + 1)) + 1 := by omega
    rw [heq, List.getElem?_cons_succ]
    exact h3
  | Shape.other :: rest, i, w, h => by
    obtain ⟨h1, h2, h3⟩ :=
      imagesLoop_warns_mem n dir rest (i + 1) w (by simpa [imagesLoop] using h)
    refine ⟨h1, by omega, ?_⟩
    have heq : w.shape_idx - i = (w.shape_idx - (i + 1)) + 1 := by omega
    rw [heq, List.getElem?_cons_succ]
    exact h3

/-- The image loop yields exactly one record per readable picture. -/
theorem imagesLoop_images_length (n : Nat) (dir : String) :
    ∀ (ss : List Shape) (i : Nat),
      (imagesLoop n dir ss i).images.length =
        (ss.filter isReadablePicture).length
  | [], _ => rfl
  | Shape.picture (some img) :: rest, i => by
    simp [imagesLoop, isReadablePicture,
      imagesLoop_images_length n dir rest (i + 1)]
  | Shape.picture none :: rest, i => by
    simp [imagesLoop, isReadablePicture,
      imagesLoop_images_length n dir rest (i + 1)]
  | Shape.textFrame t :: rest, i => by
    simp [imagesLoop, isReadablePicture,
      imagesLoop_images_length n dir rest (i + 1)]
  | Shape.table rows :: rest, i => by
    simp [imagesLoop, isReadablePicture,
      imagesLoop_images_length n dir rest (i + 1)]
  | Shape.group cs :: rest, i => by
    simp [imagesLoop, isReadablePicture,
      imagesLoop_images_length n dir rest (i + 1)]
  | Shape.other :: rest, i => by
    simp [imagesLoop, isReadablePicture,
      imagesLoop_images_length n dir rest (i + 1)]

/-- The image loop emits exactly one warning per unreadable picture. -/
theorem imagesLoop_warns_length (n : Nat) (dir : String) :
    ∀ (ss : List Shape) (i : Nat),
      (imagesLoop n dir ss i).warns.length =
        (ss.filter isFailedPicture).length
  | [], _ => rfl
  | Shape.picture (some img) :: rest, i => by
    simp [imagesLoop, isFailedPicture,
      imagesLoop_warns_length n dir rest (i + 1)]
  | Shape.picture none :: rest, i => by
    simp [imagesLoop, isFailedPicture,
      imagesLoop_warns_length n dir rest (i + 1)]
  | Shape.textFrame t :: rest, i => by
    simp [imagesLoop, isFailedPicture,
      imagesLoop_warns_length n dir rest (i + 1)]
  | Shape.table rows :: rest, i => by
    simp [imagesLoop, isFailedPicture,
      imagesLoop_warns_length n dir rest (i + 1)]
  | Shape.group cs :: rest, i => by
    simp [imagesLoop, isFailedPicture,
      imagesLoop_warns_length n dir rest (i + 1)]
  | Shape.other :: rest, i => by
    simp [imagesLoop, isFailedPicture,
      imagesLoop_warns_length n dir rest (i + 1)]

/-- Readable and unreadable pictures together account for all picture
shapes. -/
theorem filter_picture_split :
    ∀ (ss : List Shape),
      (ss.filter isPictureShape).length =
        (ss.filter isReadablePicture).length +
          (ss.filter isFailedPicture).length
  | [] => rfl
  | Shape.picture (some img) :: rest => by
    simp [isPictureShape, isReadablePicture, isFailedPicture,
      filter_picture_split rest]
    omega
  | Shape.picture none :: rest => by
    simp [isPictureShape, isReadablePicture, isFailedPicture,
      filter_picture_split rest]
    omega
  | Shape.textFrame t :: rest => by
    simp [isPictureShape, isReadablePicture, isFailedPicture,
      filter_picture_split rest]
  | Shape.table rows :: rest => by
    simp [isPictureShape, isReadablePicture, isFailedPicture,
      filter_picture_split rest]
  | Shape.group cs :: rest => by
    simp [isPictureShape, isReadablePicture, isFailedPicture,
      filter_picture_split rest]
  | Shape.other :: rest => by
    simp [isPictureShape, isReadablePicture, isFailedPicture,
      filter_picture_split rest]

end Koda

namespace Koda

/-- Slide records produced by the text-only loop never carry an
`images` key. -/
theorem textSlides_images_none :
    ∀ (ss : List Slide) (idx : Nat) (s : SlideData),
      s ∈ textSlides ss idx → s.images = none
  | [], _, _, h => by simp [textSlides] at h
  | sl :: rest, idx, s, h => by
    simp only [textSlides, List.mem_cons] at h
    cases h with
    | inl h => subst h; rfl
    | inr h => exact textSlides_images_none rest (idx + 1) s h

/-- Group traversal only looks at the `text` attribute of immediate
children. -/
theorem shapeFragments_group (xs : List Shape) :
    shapeFragments (Shape.group xs) = xs.flatMap attrFragments := by
  simp [shapeFragments, attrFragments, shapeTextAttr]

/-- C3 (confirmed): when the input path does not resolve to an existing
file, `extract_pptx_data` returns exactly
`{success: false, error: "File not found: <path>"}`, performs no
filesystem operation (in particular never creates the output
directory), and emits no warning — whatever output-directory argument
was supplied. -/
theorem C3_file_not_found (file_path : String) (od : Option String) (de : Bool) :
    extract_pptx_data file_path LoadResult.notFound od de =
      ⟨ExtractResult.failure ("File not found: " ++ file_path), [], []⟩ := rfl

/-- C7 (confirmed): a successful extraction of a deck with N slides
reports `total_slides = N`, a slide array of length N, and
`slide_number` values exactly `1, …, N` in order. -/
theorem C7_slide_numbering (fp : String) (prs : Presentation) (od : Option String)
    (de : Bool) (d : SuccessData)
    (h : (extract_pptx_data fp (LoadResult.ok prs) od de).result =
      ExtractResult.success d) :
    d.total_slides = prs.slides.length ∧
    d.slides.length = prs.slides.length ∧
    d.slides.map (fun s => s.slide_number) = List.range' 1 prs.slides.length := by
  simp only [extract_pptx_data] at h
  rw [ExtractResult.success.injEq] at h
  subst h
  refine ⟨rfl, ?_, processSlides_map_slide_number od prs.slides 1⟩
  have hmap := congrArg List.length (processSlides_map_slide_number od prs.slides 1)
  simpa using hmap

/-- Witness for C7 on the spec's 2-slide scenario deck. -/
theorem C7_slide_numbering_witness :
    (getSuccess (extract_pptx_data "deck.pptx" (LoadResult.ok demoPrs) none
        false).result).total_slides = demoPrs.slides.length ∧
    (getSuccess (extract_pptx_data "deck.pptx" (LoadResult.ok demoPrs) none
        false).result).slides.length = demoPrs.slides.length ∧
    (getSuccess (extract_pptx_data "deck.pptx" (LoadResult.ok demoPrs) none
        false).result).slides.map (fun s => s.slide_number) =
      List.range' 1 demoPrs.slides.length :=
  C7_slide_numbering "deck.pptx" demoPrs none false _ rfl

end Koda

namespace Koda

/-- C1 counterexample: on the spec's own scenario slide 1 ("Intro" plus
the 2×2 table), the code produces three fragments — "Intro", "A | B",
"C | D" — so `text_count` is 3, not 2 as claimed. -/
theorem C1_counterexample :
    (extract_text_from_slide demoSlide1 1).content = "Intro\nA | B\nC | D" ∧
    (extract_text_from_slide demoSlide1 1).text_count = 3 ∧
    (extract_text_from_slide demoSlide1 1).text_count ≠ 2 := by
  have h3 : (extract_text_from_slide demoSlide1 1).text_count = 3 := rfl
  exact ⟨rfl, h3, by rw [h3]; decide⟩

/-- C1 (corrected): the spec's 2-slide scenario, with slide 1's
`text_count` corrected from 2 to 3: slide 1 yields content
"Intro\nA | B\nC | D" with 3 fragments, slide 2 yields
"Speaker Notes: Remember X" with 1 fragment, 2 slides have text, and
`full_text` is the two marker blocks joined by one blank line. -/
theorem C1_scenario :
    extract_text_from_slide demoSlide1 1 =
      { slide_number := 1, content := "Intro\nA | B\nC | D", text_count := 3,
        images := none } ∧
    extract_text_from_slide demoSlide2 2 =
      { slide_number := 2, content := "Speaker Notes: Remember X", text_count := 1,
        images := none } ∧
    resultSlidesWithText
        (extract_pptx_data "deck.pptx" (LoadResult.ok demoPrs) none false).result =
      some 2 ∧
    resultFullText
        (extract_pptx_data "deck.pptx" (LoadResult.ok demoPrs) none false).result =
      some "=== Slide 1 ===\nIntro\nA | B\nC | D\n\n=== Slide 2 ===\nSpeaker Notes: Remember X" :=
  ⟨rfl, rfl, rfl, rfl⟩

/-- C2 (confirmed): on every successful extraction, `full_text` is the
`=== Slide n ===` blocks of exactly the slides with non-empty content,
in ascending slide-number order, joined by one blank line; slides with
empty content contribute nothing; `total_characters` is the length of
`full_text` and `slides_with_text` counts the slides with non-empty
content. -/
theorem C2_full_text_assembly (fp : String) (prs : Presentation)
    (od : Option String) (de : Bool) (d : SuccessData)
    (h : (extract_pptx_data fp (LoadResult.ok prs) od de).result =
      ExtractResult.success d) :
    d.full_text = String.intercalate "\n\n"
      ((d.slides.filter (fun s => s.content ≠ "")).map slideBlock) ∧
    ((d.slides.filter (fun s => s.content ≠ "")).map
        (fun s => s.slide_number)).Pairwise (· < ·) ∧
    d.total_characters = d.full_text.length ∧
    d.slides_with_text = (d.slides.filter (fun s => s.content ≠ "")).length := by
  simp only [extract_pptx_data] at h
  rw [ExtractResult.success.injEq] at h
  subst h
  refine ⟨rfl, ?_, rfl, rfl⟩
  have hall : ((processSlides od prs.slides 1).slides.map
      (fun s => s.slide_number)).Pairwise (· < ·) := by
    rw [processSlides_map_slide_number od prs.slides 1]
    exact List.pairwise_lt_range' 1 prs.slides.length
  exact hall.sublist
    ((List.filter_sublist (processSlides od prs.slides 1).slides).map
      (fun s => s.slide_number))

/-- Witness for C2 on the spec's 2-slide scenario deck. -/
theorem C2_full_text_assembly_witness :
    (getSuccess (extract_pptx_data "deck.pptx" (LoadResult.ok demoPrs) none
        false).result).full_text = String.intercalate "\n\n"
      (((getSuccess (extract_pptx_data "deck.pptx" (LoadResult.ok demoPrs) none
          false).result).slides.filter (fun s => s.content ≠ "")).map slideBlock) ∧
    (((getSuccess (extract_pptx_data "deck.pptx" (LoadResult.ok demoPrs) none
        false).result).slides.filter (fun s => s.content ≠ "")).map
      (fun s => s.slide_number)).Pairwise (· < ·) ∧
    (getSuccess (extract_pptx_data "deck.pptx" (LoadResult.ok demoPrs) none
        false).result).total_characters =
      (getSuccess (extract_pptx_data "deck.pptx" (LoadResult.ok demoPrs) none
        false).result).full_text.length ∧
    (getSuccess (extract_pptx_data "deck.pptx" (LoadResult.ok demoPrs) none
        false).result).slides_with_text =
      ((getSuccess (extract_pptx_data "deck.pptx" (LoadResult.ok demoPrs) none
        false).result).slides.filter (fun s => s.content ≠ "")).length :=
  C2_full_text_assembly "deck.pptx" demoPrs none false _ rfl

/-- C9 (confirmed): passing the empty string as the output directory
behaves exactly like passing no output directory: the returned value,
filesystem trace and warnings coincide, no filesystem operation is
performed, and no slide record carries an `images` key. -/
theorem C9_empty_output_dir (fp : String) (load : LoadResult) (de : Bool) :
    extract_pptx_data fp load (some "") de = extract_pptx_data fp load none de ∧
    (extract_pptx_data fp load (some "") de).ops = [] ∧
    ((getSuccess (extract_pptx_data fp load (some "") de).result).slides.all
      (fun s => s.images == none)) = true := by
  cases load with
  | notFound => exact ⟨rfl, rfl, rfl⟩
  | corrupt msg => exact ⟨rfl, rfl, rfl⟩
  | ok prs =>
    have h1 := processSlides_not_truthy (some "") rfl prs.slides 1
    have h2 := processSlides_not_truthy none rfl prs.slides 1
    refine ⟨?_, ?_, ?_⟩
    · simp [extract_pptx_data, h1, h2, truthy]
    · simp [extract_pptx_data, h1, truthy]
    · simp only [extract_pptx_data, h1, getSuccess, List.all_eq_true]
      intro s hs
      simp [textSlides_images_none prs.slides 1 s hs]

end Koda

namespace Koda

/-- C10 (confirmed): on every input where both succeed, the text-only
extractor and the image-capable extractor invoked without an output
directory agree on metadata, the per-slide records, `full_text`,
`total_slides`, `slides_with_text` and `total_characters`. -/
theorem C10_text_only_refinement (fp : String) (load : LoadResult) (de : Bool)
    (d dT : SuccessData)
    (h1 : (extract_pptx_data fp load none de).result = ExtractResult.success d)
    (h2 : extract_text_from_pptx fp load = ExtractResult.success dT) :
    d.metadata = dT.metadata ∧ d.slides = dT.slides ∧
    d.full_text = dT.full_text ∧ d.total_slides = dT.total_slides ∧
    d.slides_with_text = dT.slides_with_text ∧
    d.total_characters = dT.total_characters := by
  cases load with
  | notFound => simp [extract_pptx_data] at h1
  | corrupt msg => simp [extract_pptx_data] at h1
  | ok prs =>
    have hps := processSlides_not_truthy none rfl prs.slides 1
    simp only [extract_pptx_data, hps] at h1
    simp only [extract_text_from_pptx] at h2
    rw [ExtractResult.success.injEq] at h1 h2
    subst h1
    subst h2
    exact ⟨rfl, rfl, rfl, rfl, rfl, rfl⟩

/-- Witness for C10 on the spec's 2-slide scenario deck. -/
theorem C10_text_only_refinement_witness :
    (getSuccess (extract_pptx_data "deck.pptx" (LoadResult.ok demoPrs) none
        false).result).metadata =
      (getSuccess (extract_text_from_pptx "deck.pptx"
        (LoadResult.ok demoPrs))).metadata ∧
    (getSuccess (extract_pptx_data "deck.pptx" (LoadResult.ok demoPrs) none
        false).result).slides =
      (getSuccess (extract_text_from_pptx "deck.pptx"
        (LoadResult.ok demoPrs))).slides ∧
    (getSuccess (extract_pptx_data "deck.pptx" (LoadResult.ok demoPrs) none
        false).result).full_text =
      (getSuccess (extract_text_from_pptx "deck.pptx"
        (LoadResult.ok demoPrs))).full_text ∧
    (getSuccess (extract_pptx_data "deck.pptx" (LoadResult.ok demoPrs) none
        false).result).total_slides =
      (getSuccess (extract_text_from_pptx "deck.pptx"
        (LoadResult.ok demoPrs))).total_slides ∧
    (getSuccess (extract_pptx_data "deck.pptx" (LoadResult.ok demoPrs) none
        false).result).slides_with_text =
      (getSuccess (extract_text_from_pptx "deck.pptx"
        (LoadResult.ok demoPrs))).slides_with_text ∧
    (getSuccess (extract_pptx_data "deck.pptx" (LoadResult.ok demoPrs) none
        false).result).total_characters =
      (getSuccess (extract_text_from_pptx "deck.pptx"
        (LoadResult.ok demoPrs))).total_characters :=
  C10_text_only_refinement "deck.pptx" (LoadResult.ok demoPrs) false _ _ rfl rfl

end Koda

namespace Koda

/-- The length of a string built from a character list. -/
theorem string_mk_length (l : List Char) : (String.mk l).length = l.length := rfl

/-- C4 (confirmed): every extracted image record's `base64` field is
the data-URI prefix followed by only the first 100 characters of the
base64 encoding of the image bytes and an ellipsis marker; its length
is bounded independently of the image size, so the full payload never
appears inline. -/
theorem C4_base64_preview (slide : Slide) (n : Nat) (dir : String)
    (r : ImageRecord)
    (hr : r ∈ (extract_images_from_slide slide n dir).images) :
    ∃ img : ImageBlob,
      r.content_type = img.content_type ∧
      r.size = img.blob.length ∧
      r.base64 = "data:" ++ img.content_type ++ ";base64," ++
        String.mk ((b64chars img.blob).take 100) ++ "..." ∧
      ((b64chars img.blob).take 100).length ≤ 100 ∧
      r.base64.length = "data:".length + img.content_type.length +
        ";base64,".length + min 100 (b64chars img.blob).length +
        "...".length := by
  obtain ⟨j, img, hr'⟩ := imagesLoop_images_mem n dir slide.shapes 0 r hr
  subst hr'
  refine ⟨img, rfl, rfl, rfl, ?_, ?_⟩
  · rw [List.length_take]
    exact Nat.min_le_left _ _
  · simp [mkImageRecord, String.length_append, string_mk_length, List.length_take]

/-- Witness for C4 on a slide holding one readable picture. -/
theorem C4_base64_preview_witness :
    ∃ img : ImageBlob,
      (mkImageRecord 1 0 "out" demoBlob).content_type = img.content_type ∧
      (mkImageRecord 1 0 "out" demoBlob).size = img.blob.length ∧
      (mkImageRecord 1 0 "out" demoBlob).base64 =
        "data:" ++ img.content_type ++ ";base64," ++
          String.mk ((b64chars img.blob).take 100) ++ "..." ∧
      ((b64chars img.blob).take 100).length ≤ 100 ∧
      (mkImageRecord 1 0 "out" demoBlob).base64.length =
        "data:".length + img.content_type.length + ";base64,".length +
          min 100 (b64chars img.blob).length + "...".length :=
  C4_base64_preview demoBadSlide 1 "out" (mkImageRecord 1 0 "out" demoBlob)
    (by decide)

/-- C5 (confirmed): a picture whose bytes cannot be read produces one
warning naming its slide number and shape index, is omitted from the
image list, and does not stop the extraction: the loop still yields one
record per readable picture, records plus warnings account for every
picture shape, and the overall run on a loadable deck is always a
success. -/
theorem C5_bad_image_skipped (slide : Slide) (n : Nat) (dir : String)
    (w : Warning)
    (hw : w ∈ (extract_images_from_slide slide n dir).warns) :
    (w.slide_number = n ∧
      slide.shapes[w.shape_idx]? = some (Shape.picture none)) ∧
    (extract_images_from_slide slide n dir).images.length =
      (slide.shapes.filter isReadablePicture).length ∧
    (extract_images_from_slide slide n dir).images.length +
        (extract_images_from_slide slide n dir).warns.length =
      (slide.shapes.filter isPictureShape).length ∧
    ∀ (fp : String) (prs : Presentation) (od : Option String) (de : Bool),
      resultIsSuccess (extract_pptx_data fp (LoadResult.ok prs) od de).result =
        true := by
  obtain ⟨h1, _, h3⟩ := imagesLoop_warns_mem n dir slide.shapes 0 w hw
  rw [Nat.sub_zero] at h3
  refine ⟨⟨h1, h3⟩, imagesLoop_images_length n dir slide.shapes 0, ?_, ?_⟩
  · show (imagesLoop n dir slide.shapes 0).images.length +
        (imagesLoop n dir slide.shapes 0).warns.length = _
    rw [imagesLoop_images_length n dir slide.shapes 0,
      imagesLoop_warns_length n dir slide.shapes 0, filter_picture_split]
  · intro fp prs od de
    simp [extract_pptx_data, resultIsSuccess]

/-- Witness for C5 on a slide with one readable and one unreadable
picture. -/
theorem C5_bad_image_skipped_witness :
    ((Warning.mk 1 1).slide_number = 1 ∧
      demoBadSlide.shapes[(Warning.mk 1 1).shape_idx]? =
        some (Shape.picture none)) ∧
    (extract_images_from_slide demoBadSlide 1 "out").images.length =
      (demoBadSlide.shapes.filter isReadablePicture).length ∧
    resultIsSuccess (extract_pptx_data "deck.pptx" (LoadResult.ok demoBadPrs)
      (some "out") false).result = true := by
  have h := C5_bad_image_skipped demoBadSlide 1 "out" ⟨1, 1⟩ (by decide)
  exact ⟨h.1, h.2.1, h.2.2.2 "deck.pptx" demoBadPrs (some "out") false⟩

/-- C6 counterexample: without any output directory the successful
result still carries `total_images` (as 0) and `images` (as the empty
list), so the keys are not "present only when image extraction is
enabled". -/
theorem C6_counterexample :
    resultTotalImages
        (extract_pptx_data "deck.pptx" (LoadResult.ok demoPrs) none
          false).result = some (some 0) ∧
    resultImages
        (extract_pptx_data "deck.pptx" (LoadResult.ok demoPrs) none
          false).result = some (some []) :=
  ⟨rfl, rfl⟩

/-- C6 (corrected): `total_images` and `images` are always present in a
successful result — without an output directory they are 0 and the
empty list; `images` is the flattening of the per-slide image lists in
slide order and `total_images` is its length. -/
theorem C6_images_always_present (fp : String) (prs : Presentation)
    (od : Option String) (de : Bool) (d : SuccessData)
    (h : (extract_pptx_data fp (LoadResult.ok prs) od de).result =
      ExtractResult.success d) :
    d.images = some (d.slides.flatMap (fun s => s.images.getD [])) ∧
    d.total_images =
      some ((d.slides.flatMap (fun s => s.images.getD [])).length) ∧
    d.images ≠ none ∧ d.total_images ≠ none := by
  simp only [extract_pptx_data] at h
  rw [ExtractResult.success.injEq] at h
  subst h
  refine ⟨?_, ?_, by simp, by simp⟩
  · rw [processSlides_images_flatten od prs.slides 1]
  · rw [processSlides_images_flatten od prs.slides 1]

/-- Witness for C6 on the spec's 2-slide scenario deck, without an
output directory. -/
theorem C6_images_always_present_witness :
    (getSuccess (extract_pptx_data "deck.pptx" (LoadResult.ok demoPrs) none
        false).result).images =
      some ((getSuccess (extract_pptx_data "deck.pptx" (LoadResult.ok demoPrs)
        none false).result).slides.flatMap (fun s => s.images.getD [])) ∧
    (getSuccess (extract_pptx_data "deck.pptx" (LoadResult.ok demoPrs) none
        false).result).total_images =
      some (((getSuccess (extract_pptx_data "deck.pptx" (LoadResult.ok demoPrs)
        none false).result).slides.flatMap (fun s => s.images.getD [])).length) ∧
    (getSuccess (extract_pptx_data "deck.pptx" (LoadResult.ok demoPrs) none
        false).result).images ≠ none ∧
    (getSuccess (extract_pptx_data "deck.pptx" (LoadResult.ok demoPrs) none
        false).result).total_images ≠ none :=
  C6_images_always_present "deck.pptx" demoPrs none false _ rfl

/-- C8 (confirmed): group traversal visits only the group's immediate
children: a nested group child (whatever it contains) contributes no
fragment, any non-text child contributes no fragment, and a text-frame
child contributes exactly the trimmed non-empty fragment that
stand-alone TextFrame handling would produce. -/
theorem C8_group_one_level (cs inner : List Shape) (t : String) (c : Shape)
    (hc : ∀ s, c ≠ Shape.textFrame s) :
    shapeFragments (Shape.group (Shape.group inner :: cs)) =
      shapeFragments (Shape.group cs) ∧
    shapeFragments (Shape.group (c :: cs)) = shapeFragments (Shape.group cs) ∧
    shapeFragments (Shape.group (Shape.textFrame t :: cs)) =
      trimFragment t ++ shapeFragments (Shape.group cs) ∧
    shapeFragments (Shape.textFrame t) = trimFragment t := by
  have hattr : attrFragments c = [] := by
    cases c with
    | textFrame s => exact absurd rfl (hc s)
    | table rows => rfl
    | group children => rfl
    | picture img => rfl
    | other => rfl
  refine ⟨?_, ?_, ?_, ?_⟩
  · simp [shapeFragments_group, List.flatMap_cons, attrFragments, shapeTextAttr]
  · simp [shapeFragments_group, List.flatMap_cons, hattr]
  · simp [shapeFragments_group, List.flatMap_cons, attrFragments, shapeTextAttr]
  · simp [shapeFragments, attrFragments, shapeTextAttr]

/-- Witness for C8: a group holding a nested group, next to a non-text
child and a text-frame child. -/
theorem C8_group_one_level_witness :
    shapeFragments (Shape.group (Shape.group [Shape.textFrame "deep"] ::
        [Shape.textFrame "x"])) =
      shapeFragments (Shape.group [Shape.textFrame "x"]) ∧
    shapeFragments (Shape.group (Shape.other :: [Shape.textFrame "x"])) =
      shapeFragments (Shape.group [Shape.textFrame "x"]) ∧
    shapeFragments (Shape.group (Shape.textFrame " hi " ::
        [Shape.textFrame "x"])) =
      trimFragment " hi " ++ shapeFragments (Shape.group [Shape.textFrame "x"]) ∧
    shapeFragments (Shape.textFrame " hi ") = trimFragment " hi " :=
  C8_group_one_level [Shape.textFrame "x"] [Shape.textFrame "deep"] " hi "
    Shape.other (fun _ h => Shape.noConfusion h)

end Koda
